import Mathlib

/-!
Shallow embedding of the `setup.py` build script of the flute repository.

The script is pure glue around the environment: it reads files, invokes
`nvcc -V` once, and assembles a version string, an extension descriptor and a
requirement list.  The embedding makes every environment interaction an
explicit parameter: file contents, the `CUDA_HOME` variable, the captured
`nvcc` output, the parsed torch version and the glob results are all inputs.
Python exceptions (RuntimeError, AssertionError, ValueError, IndexError,
InvalidVersion, missing files) become an explicit error type, and the
unbounded recursion of `_read_requirements` is modelled with an explicit
fuel argument bounding the recursion depth.

String primitives used by the script (`str.split`, `str.strip`,
`str.replace(".", "")`, slicing, `list.index`, `os.path.join`) are modelled
over the character list of a `String` so that every definition evaluates by
`rfl` and `decide`.
-/

/-- Errors a run of the script can raise, one constructor per Python
exception that the source can surface, plus fuel exhaustion for the
unbounded recursion of `_read_requirements`. -/
inductive SetupErr where
  | runtimeError
  | assertionError
  | valueError
  | indexError
  | invalidVersion
  | outOfFuel
  | fileMissing
deriving DecidableEq

/-- Splits a character list at every character satisfying `p`, keeping empty
groups, mirroring how Python and Lean splitting produce one group more than
the number of separators. -/
def splitIfList (p : Char → Bool) : List Char → List (List Char)
  | [] => [[]]
  | c :: cs =>
    match splitIfList p cs with
    | [] => [[]]
    | g :: gs => if p c then [] :: g :: gs else (c :: g) :: gs

/-- Models Python `s.split(sep)` for a one-character separator. -/
def splitOnChar (sep : Char) (s : String) : List String :=
  (splitIfList (fun c => c == sep) s.data).map String.mk

/-- Models Python `s.split("\n")`, the line view taken by the script when it
processes requirements files and when the multiline regex anchors at line
starts. -/
def splitLines (s : String) : List String :=
  splitOnChar (Char.ofNat 10) s

/-- Models Python `s.split()` with no argument: split on whitespace runs and
drop empty fields. -/
def pySplit (s : String) : List String :=
  ((splitIfList Char.isWhitespace s.data).filter (fun g => g != [])).map String.mk

/-- Models Python `s.strip()`: remove leading and trailing whitespace of the
whole string only. -/
def pyStrip (s : String) : String :=
  String.mk (((s.data.dropWhile Char.isWhitespace).reverse.dropWhile Char.isWhitespace).reverse)

/-- Models Python `s.startswith(p)`. -/
def startsWithStr (s p : String) : Bool :=
  decide (s.data.take p.data.length = p.data)

/-- Models Python slicing `s[:n]`. -/
def pyTake (n : Nat) (s : String) : String :=
  String.mk (s.data.take n)

/-- Models Python `s.replace(".", "")`: with an empty replacement and a
one-character pattern this removes every dot. -/
def removeDots (s : String) : String :=
  String.mk (s.data.filter (fun c => c != '.'))

/-- Models Python `xs.index(x)` on a list of strings: index of the first
occurrence, `none` where Python raises ValueError. -/
def pyIndex (x : String) : List String → Option Nat
  | [] => none
  | y :: ys => if y = x then some 0 else (pyIndex x ys).map (fun n => n + 1)

/-- Models the two-argument `os.path.join` instances of the script. -/
def pathJoin (a b : String) : String :=
  if b.data.take 1 = ['/'] then b
  else if a = "" then b
  else if a.data.getLast? = some '/' then a ++ b
  else a ++ "/" ++ b

/-- Numeric value of a digit string, as Python `int` on the digit runs that
`packaging` keeps for a release segment. -/
def charsToNat (cs : List Char) : Nat :=
  cs.foldl (fun acc c => acc * 10 + (c.toNat - '0'.toNat)) 0

/-- A parsed version value as the script uses it: `packaging.version.parse`
restricted to the plain dotted numeric releases that appear in nvcc output
and torch version strings.  Only the release tuple is ever consulted. -/
structure PyVersion where
  release : List Nat
deriving DecidableEq

/-- Models the `major` property of a packaging version: first release
component, zero when absent. -/
def PyVersion.major (v : PyVersion) : Nat := v.release.getD 0 0

/-- Models the `minor` property of a packaging version: second release
component, zero when absent. -/
def PyVersion.minor (v : PyVersion) : Nat := v.release.getD 1 0

/-- Models `str(version)` of packaging on a plain release-only version: the
dot-joined decimal components. -/
def PyVersion.str (v : PyVersion) : String :=
  String.mk (List.intercalate ['.'] (v.release.map (fun n => (Nat.repr n).data)))

/-- Models `packaging.version.parse` on the inputs the script feeds it:
dot-separated nonempty digit groups parse to their release tuple, anything
else is treated as a parse failure. -/
def parseVersion (s : String) : Option PyVersion :=
  let parts := splitOnChar '.' s
  if parts.all (fun p => p != "" && p.data.all Char.isDigit) then
    some (PyVersion.mk (parts.map (fun p => charsToNat p.data)))
  else none

/-- Constant from the source: the distributed package name. -/
def DISTRIBUTION_NAME : String := "flute-kernel"

/-- Constant from the source: the extension library name. -/
def LIBRARY_NAME : String := "flute"

/-- Constant from the source: location of the cutlass checkout. -/
def CUTLASS_PATH : String := "/workspace/cutlass/"

/-- The pattern that must sit at the start of a line for the multiline
regex of `find_version` to match: the characters of `__version__ = `. -/
def versionPat : List Char := "__version__ = ".data

/-- True on the two quote characters of the regex character class; 39 is the
single-quote codepoint. -/
def isQuoteChar (c : Char) : Bool := c.toNat == 39 || c == '"'

/-- One line step of the regex search of `find_version`.  The pattern
`__version__ = ['"]([^'"]*)['"]` is anchored at the line start by `^` with
`re.M`: the line must begin with the literal pattern, then an opening quote,
then the captured run of non-quote characters, then a closing quote of
either kind. -/
def matchVersionLine (line : String) : Option String :=
  if line.data.take versionPat.length = versionPat then
    match line.data.drop versionPat.length with
    | [] => none
    | q :: rest =>
      if isQuoteChar q then
        let captured := rest.takeWhile (fun c => !(isQuoteChar c))
        match rest.drop captured.length with
        | [] => none
        | c :: _ => if isQuoteChar c then some (String.mk captured) else none
      else none
  else none

/-- Models `find_version` applied to the contents of the version file: the
first line-anchored match of the multiline regex wins, and a missing match
raises RuntimeError. -/
def find_version (contents : String) : Except SetupErr String :=
  match (splitLines contents).findSome? matchVersionLine with
  | some v => .ok v
  | none => .error .runtimeError

/-- Models `tok.split(",")[0]`: the field before the first comma. -/
def firstCommaField (tok : String) : String :=
  (splitOnChar ',' tok).headD ""

/-- The parsing half of `get_nvcc_cuda_version`: whitespace-split the nvcc
output, find the first `release` token, take the next token, cut it at the
first comma and parse it as a version. -/
def parseNvccOutput (nvcc_output : String) : Except SetupErr PyVersion :=
  match pyIndex "release" (pySplit nvcc_output) with
  | none => .error .valueError
  | some idx =>
    match (pySplit nvcc_output)[idx + 1]? with
    | none => .error .indexError
    | some tok =>
      match parseVersion (firstCommaField tok) with
      | none => .error .invalidVersion
      | some v => .ok v

/-- Models `get_nvcc_cuda_version`: the assertion on `CUDA_HOME` fires
before anything else, then the captured nvcc output is parsed. -/
def get_nvcc_cuda_version (cuda_home : Option String) (nvcc_output : String) :
    Except SetupErr PyVersion :=
  match cuda_home with
  | none => .error .assertionError
  | some _ => parseNvccOutput nvcc_output

/-- Models the torch fragment `f"{major}.{minor}"` of `get_version`. -/
def torchVerStr (v : PyVersion) : String :=
  Nat.repr (PyVersion.major v) ++ "." ++ Nat.repr (PyVersion.minor v)

/-- Models the version assembly of `get_version`, parametrised by the three
environment-derived values the source obtains first: the base version from
the version file, the parsed nvcc CUDA version and the parsed torch
version. -/
def get_version (base : String) (cuda torch : PyVersion) : String :=
  let cuda_version := PyVersion.str cuda
  let cuda_version_str := pyTake 3 (removeDots cuda_version)
  let torch_version_str := torchVerStr torch
  base ++ "+cu" ++ cuda_version_str ++ "torch" ++ torch_version_str

/-- The extension descriptor handed to the build backend: module name,
source list, per-compiler flag lists, link flags and include directories,
exactly the fields the source passes to `CUDAExtension`. -/
structure CUDAExtension where
  name : String
  sources : List String
  extra_compile_args_cxx : List String
  extra_compile_args_nvcc : List String
  extra_link_args : List String
  include_dirs : List String
deriving DecidableEq

/-- Models `get_extensions`, parametrised by the results of the two globs
over `flute/csrc` (the only environment interaction of the function).  The
source list is the `.cpp` glob result concatenated with the `.cu` glob
result, with no validation of emptiness. -/
def get_extensions (cppFiles cuFiles : List String) : List CUDAExtension :=
  let extra_link_args : List String := []
  let cxx_args : List String := ["-std=c++17"]
  let nvcc_args : List String :=
    ["-gencode=arch=compute_80,code=sm_80",
     "-gencode=arch=compute_86,code=sm_86",
     "-gencode=arch=compute_89,code=sm_89",
     "-gencode=arch=compute_90,code=sm_90",
     "-gencode=arch=compute_90,code=compute_90",
     "-std=c++17"]
  let include_dirs :=
    [pathJoin CUTLASS_PATH "include", pathJoin CUTLASS_PATH "tools/util/include"]
  let sources := cppFiles ++ cuFiles
  [CUDAExtension.mk (LIBRARY_NAME ++ "._C") sources cxx_args nvcc_args
    extra_link_args include_dirs]

/-- One pass of the loop body of `_read_requirements` over the split lines:
a line starting with `-r ` is replaced by the recursively resolved lines of
the file it names (obtained through the continuation `r`), any other line is
kept in place. -/
def resolveLoop (r : String → Except SetupErr (List String)) :
    List String → Except SetupErr (List String)
  | [] => .ok []
  | line :: rest =>
    if startsWithStr line "-r " then
      match (pySplit line)[1]? with
      | none => .error .indexError
      | some fname =>
        match r fname with
        | .error e => .error e
        | .ok rs =>
          match resolveLoop r rest with
          | .error e => .error e
          | .ok rest2 => .ok (rs ++ rest2)
    else
      match resolveLoop r rest with
      | .error e => .error e
      | .ok rest2 => .ok (line :: rest2)

/-- Models `_read_requirements` over an explicit file system `fs`.  The
source strips the whole file, splits it on newlines and walks the lines,
recursing into `-r` directives; the recursion there has no cycle detection,
so the model carries a fuel argument bounding the recursion depth, and
`SetupErr.outOfFuel` at every fuel marks a run that never terminates. -/
def _read_requirements (fs : String → Option String) :
    Nat → String → Except SetupErr (List String)
  | 0, _ => .error .outOfFuel
  | fuel + 1, filename =>
    match fs filename with
    | none => .error .fileMissing
    | some contents =>
      resolveLoop (fun fn => _read_requirements fs fuel fn)
        (splitLines (pyStrip contents))

/-- Models `get_requirements`: resolve the top-level `requirements.txt`. -/
def get_requirements (fs : String → Option String) (fuel : Nat) :
    Except SetupErr (List String) :=
  _read_requirements fs fuel "requirements.txt"

/-- Observable environment interactions of the script, in the order the
`setup(...)` call evaluates its arguments. -/
inductive SetupAction where
  | readVersionFile
  | invokeNvcc
  | globCpp
  | globCu
  | readRequirements
deriving DecidableEq

/-- The data the script hands to setuptools when every step succeeds. -/
structure SetupResult where
  version : String
  ext_modules : List CUDAExtension
  install_requires : List String

/-- The environment a run of the script observes: `CUDA_HOME`, the version
file contents, the captured nvcc output, the parsed torch version, the two
glob results and the requirements file system. -/
structure SetupEnv where
  cuda_home : Option String
  initPy : String
  nvcc_out : String
  torchVer : PyVersion
  cppGlob : List String
  cuGlob : List String
  reqFs : String → Option String

/-- Models the module-level `setup(...)` call: keyword arguments evaluate
left to right, so `get_version` (which reads the version file, then asserts
`CUDA_HOME` and only then invokes nvcc) runs before `get_extensions` (the
only globbing) and before `get_requirements`.  The trace records the
environment interactions actually performed. -/
def runSetup (env : SetupEnv) (fuel : Nat) :
    List SetupAction × Except SetupErr SetupResult :=
  match find_version env.initPy with
  | .error e => ([SetupAction.readVersionFile], .error e)
  | .ok base =>
    match env.cuda_home with
    | none => ([SetupAction.readVersionFile], .error .assertionError)
    | some _ =>
      match parseNvccOutput env.nvcc_out with
      | .error e => ([SetupAction.readVersionFile, SetupAction.invokeNvcc], .error e)
      | .ok cudaVer =>
        let fullTrace := [SetupAction.readVersionFile, SetupAction.invokeNvcc,
          SetupAction.globCpp, SetupAction.globCu, SetupAction.readRequirements]
        match _read_requirements env.reqFs fuel "requirements.txt" with
        | .error e => (fullTrace, .error e)
        | .ok reqs =>
          (fullTrace, .ok (SetupResult.mk (get_version base cudaVer env.torchVer)
            (get_extensions env.cppGlob env.cuGlob) reqs))

/-- The version shape asserted by the claim wording for `get_version`:
a suffix `+cu` followed by exactly three digits, then `torch` and the
torch fragment.  Stated over character lists so that it can be compared
with the output of the source-derived definition. -/
def claimedVersionForm (base torchStr out : String) : Prop :=
  ∃ c : List Char, c.length = 3 ∧ (∀ x ∈ c, x.isDigit = true) ∧
    out.data = base.data ++ "+cu".data ++ c ++ "torch".data ++ torchStr.data

/-- A requirements file system whose top file includes itself, the
self-referential chain of claim C5. -/
def fs0 : String → Option String := fun n =>
  if n = "requirements.txt" then some "-r requirements.txt" else none

/-- A requirements file system whose top file has an `-r` directive on its
first line followed by an ordinary line, separating splice order from
concatenation order. -/
def fs1 : String → Option String := fun n =>
  if n = "requirements.txt" then some "-r other.txt\nalpha"
  else if n = "other.txt" then some "beta" else none

/-- A requirements file system where the same requirement appears both
directly and through an include, exposing the absence of de-duplication. -/
def fs2 : String → Option String := fun n =>
  if n = "requirements.txt" then some "numpy\n-r other.txt"
  else if n = "other.txt" then some "numpy" else none

/-- A requirements file system whose top file has an interior blank line. -/
def fs3 : String → Option String := fun n =>
  if n = "requirements.txt" then some "alpha\n\nbeta" else none

/-- Version file contents with two version assignment lines. -/
def contents2 : String :=
  "__version__ = \"1.0.0\"\n__version__ = \"2.0.0\""

/-- An nvcc output containing two `release` tokens, the second followed by
`12.1,`. -/
def nvccOutDup : String := "release 9.2, release 12.1,"

/-- A realistic nvcc output whose single `release` token is followed by
`12.1,`. -/
def nvccOutGood : String := "Cuda compilation tools, release 12.1, V12.1.105"

/-- A setup environment with `CUDA_HOME` unset and a wellformed version
file. -/
def env0 : SetupEnv :=
  SetupEnv.mk none "__version__ = \"0.0.1\"\n" "nvcc: NVIDIA" (PyVersion.mk [2, 3])
    [] [] (fun _ => none)

/-! ### General helper lemmas -/

theorem take_append_self {α : Type} : ∀ (l₁ l₂ : List α), (l₁ ++ l₂).take l₁.length = l₁ := by
  intro l₁ l₂
  induction l₁ with
  | nil => rfl
  | cons a l _ih => simp

theorem drop_append_self {α : Type} : ∀ (l₁ l₂ : List α), (l₁ ++ l₂).drop l₁.length = l₂ := by
  intro l₁ l₂
  induction l₁ with
  | nil => rfl
  | cons a l _ih => simp

theorem findSome?_append_none {α β : Type} (f : α → Option β) (pre rest : List α)
    (h : ∀ l ∈ pre, f l = none) :
    List.findSome? f (pre ++ rest) = List.findSome? f rest := by
  induction pre with
  | nil => rfl
  | cons a pre ih =>
    have ha : f a = none := h a (List.mem_cons_self a pre)
    have h' : ∀ l ∈ pre, f l = none := fun l hl => h l (List.mem_cons_of_mem a hl)
    simp [List.findSome?, ha, ih h']

theorem findSome?_eq_none_of {α β : Type} (f : α → Option β) (ls : List α)
    (h : ∀ l ∈ ls, f l = none) : List.findSome? f ls = none := by
  induction ls with
  | nil => rfl
  | cons a ls ih =>
    have ha : f a = none := h a (List.mem_cons_self a ls)
    simp [List.findSome?, ha, ih (fun l hl => h l (List.mem_cons_of_mem a hl))]

theorem pyIndex_append (x : String) (pre rest : List String)
    (h : ∀ t ∈ pre, t ≠ x) :
    pyIndex x (pre ++ x :: rest) = some pre.length := by
  induction pre with
  | nil => simp [pyIndex]
  | cons a pre ih =>
    have ha : a ≠ x := h a (List.mem_cons_self a pre)
    simp [pyIndex, ha, ih (fun t ht => h t (List.mem_cons_of_mem a ht))]

theorem getElem?_append_succ {α : Type} :
    ∀ (pre : List α) (x y : α) (post : List α),
      (pre ++ x :: y :: post)[pre.length + 1]? = some y := by
  intro pre x y post
  induction pre with
  | nil => simp
  | cons a pre ih => simpa using ih

/-! ### Helper lemmas about find_version -/

theorem find_version_first (contents : String) (pre : List String) (line : String)
    (post : List String) (v : String)
    (hl : splitLines contents = pre ++ line :: post)
    (hpre : ∀ l ∈ pre, matchVersionLine l = none)
    (hline : matchVersionLine line = some v) :
    find_version contents = .ok v := by
  unfold find_version
  rw [hl, findSome?_append_none _ _ _ hpre]
  simp [List.findSome?, hline]

/-! ### Helper lemmas about the requirements loop -/

theorem resolveLoop_plain (r : String → Except SetupErr (List String))
    (line : String) (rest t : List String)
    (hline : startsWithStr line "-r " = false)
    (hrest : resolveLoop r rest = .ok t) :
    resolveLoop r (line :: rest) = .ok (line :: t) := by
  simp [resolveLoop, hline, hrest]

theorem resolveLoop_directive (r : String → Except SetupErr (List String))
    (line target : String) (rest rs t : List String)
    (hline : startsWithStr line "-r " = true)
    (htarget : (pySplit line)[1]? = some target)
    (hr : r target = .ok rs)
    (hrest : resolveLoop r rest = .ok t) :
    resolveLoop r (line :: rest) = .ok (rs ++ t) := by
  simp [resolveLoop, hline, htarget, hr, hrest]

theorem resolveLoop_self_ok (r : String → Except SetupErr (List String)) :
    ∀ ls : List String, (∀ l ∈ ls, startsWithStr l "-r " = false) →
      resolveLoop r ls = .ok ls := by
  intro ls
  induction ls with
  | nil => intro _; rfl
  | cons a rest ih =>
    intro h
    exact resolveLoop_plain r a rest rest (h a (List.mem_cons_self a rest))
      (ih (fun l hl => h l (List.mem_cons_of_mem a hl)))

theorem resolveLoop_clean_ok (r : String → Except SetupErr (List String)) :
    ∀ pre : List String, (∀ l ∈ pre, startsWithStr l "-r " = false) →
      ∀ rest t : List String, resolveLoop r rest = .ok t →
        resolveLoop r (pre ++ rest) = .ok (pre ++ t) := by
  intro pre
  induction pre with
  | nil => intro _ rest t h; simpa using h
  | cons a pre ih =>
    intro hp rest t h
    have ha : startsWithStr a "-r " = false := hp a (List.mem_cons_self a pre)
    have hrec := ih (fun l hl => hp l (List.mem_cons_of_mem a hl)) rest t h
    exact resolveLoop_plain r a (pre ++ rest) (pre ++ t) ha hrec

theorem resolveLoop_preserves_plain (r : String → Except SetupErr (List String)) :
    ∀ ls res : List String, resolveLoop r ls = .ok res →
      ∀ l ∈ ls, startsWithStr l "-r " = false → l ∈ res := by
  intro ls
  induction ls with
  | nil =>
    intro res h l hl
    exact absurd hl (List.not_mem_nil l)
  | cons a rest ih =>
    intro res h l hl hplain
    cases hda : startsWithStr a "-r " with
    | false =>
      cases hrest : resolveLoop r rest with
      | error e => simp [resolveLoop, hda, hrest] at h
      | ok t =>
        simp [resolveLoop, hda, hrest] at h
        rcases List.mem_cons.mp hl with h1 | h1
        · rw [← h, h1]
          exact List.mem_cons_self a t
        · rw [← h]
          exact List.mem_cons_of_mem a (ih t hrest l h1 hplain)
    | true =>
      cases hfn : (pySplit a)[1]? with
      | none => simp [resolveLoop, hda, hfn] at h
      | some fname =>
        cases hr : r fname with
        | error e => simp [resolveLoop, hda, hfn, hr] at h
        | ok rs =>
          cases hrest : resolveLoop r rest with
          | error e => simp [resolveLoop, hda, hfn, hr, hrest] at h
          | ok t =>
            simp [resolveLoop, hda, hfn, hr, hrest] at h
            rcases List.mem_cons.mp hl with h1 | h1
            · rw [h1] at hplain
              rw [hplain] at hda
              exact Bool.noConfusion hda
            · rw [← h]
              exact List.mem_append_right rs (ih t hrest l h1 hplain)

/-! ### Claim theorems -/

/-- Claim C6 (confirmed): when both globs over the extension source
directory match nothing, `get_extensions` still returns exactly one
extension descriptor and its source list is empty; the model is total, so
no error is raised. -/
theorem get_extensions_empty_sources :
    (get_extensions [] []).map CUDAExtension.sources = [[]] := rfl

/-- Claim C9 (confirmed): the source list of the single extension
descriptor is the `.cpp` glob result concatenated with the `.cu` glob
result, so the first block of the list is exactly the `.cpp` files and the
remainder is exactly the `.cu` files: every `.cpp` file appears before
every `.cu` file. -/
theorem get_extensions_cpp_before_cu (cppFiles cuFiles : List String) :
    ∃ e : CUDAExtension, get_extensions cppFiles cuFiles = [e] ∧
      e.sources = cppFiles ++ cuFiles ∧
      e.sources.take cppFiles.length = cppFiles ∧
      e.sources.drop cppFiles.length = cuFiles :=
  ⟨_, rfl, rfl, take_append_self cppFiles cuFiles, drop_append_self cppFiles cuFiles⟩

/-- Claim C1 (counterexample): for CUDA version 9.2 the assembled version
is `1.0.0+cu92torch2.3`, whose `cu` fragment has two digits, so the output
does not have the claimed three-digit shape. -/
theorem get_version_two_digit_cuda :
    get_version "1.0.0" (PyVersion.mk [9, 2]) (PyVersion.mk [2, 3, 1]) = "1.0.0+cu92torch2.3" ∧
    ¬ claimedVersionForm "1.0.0" "2.3"
      (get_version "1.0.0" (PyVersion.mk [9, 2]) (PyVersion.mk [2, 3, 1])) := by
  refine ⟨rfl, ?_⟩
  intro h
  obtain ⟨c, hc3, _hdig, he⟩ := h
  have hlen : (get_version "1.0.0" (PyVersion.mk [9, 2]) (PyVersion.mk [2, 3, 1])).data.length
      = 18 := rfl
  rw [he] at hlen
  simp only [List.length_append] at hlen
  have e1 : ("1.0.0" : String).data.length = 5 := rfl
  have e2 : ("+cu" : String).data.length = 3 := rfl
  have e3 : ("torch" : String).data.length = 5 := rfl
  have e4 : ("2.3" : String).data.length = 3 := rfl
  rw [e1, e2, e3, e4, hc3] at hlen
  omega

/-- Claim C1 (corrected): for every base version, CUDA version and torch
version, `get_version` returns the base followed by `+cu`, then the CUDA
version string with dots removed truncated to at most three characters,
then `torch` and the `major.minor` torch fragment; the truncation gives
exactly three digits for CUDA 12.1 and the example input assembles to
`1.0.0+cu121torch2.3`. -/
theorem get_version_suffix_bounded (base : String) (cuda torch : PyVersion) :
    (∃ s : String, s.data.length ≤ 3 ∧
       get_version base cuda torch = base ++ "+cu" ++ s ++ "torch" ++ torchVerStr torch) ∧
    get_version "1.0.0" (PyVersion.mk [12, 1]) (PyVersion.mk [2, 3, 1])
      = "1.0.0+cu121torch2.3" := by
  refine ⟨⟨pyTake 3 (removeDots (PyVersion.str cuda)), ?_, rfl⟩, rfl⟩
  show ((removeDots (PyVersion.str cuda)).data.take 3).length ≤ 3
  rw [List.length_take]
  exact Nat.min_le_left 3 _

/-- Claim C5 (confirmed): on the self-referential file system `fs0` the
recursive resolution exhausts every fuel bound, so the recursion of the
source (which has no fuel) never terminates; and nothing de-duplicates:
a requirement reached both directly and through an include appears twice. -/
theorem read_requirements_self_reference_diverges :
    (∀ fuel : Nat, _read_requirements fs0 fuel "requirements.txt" = .error .outOfFuel) ∧
    get_requirements fs2 2 = .ok ["numpy", "numpy"] := by
  refine ⟨?_, rfl⟩
  intro fuel
  induction fuel with
  | zero => rfl
  | succ n ih =>
    have h : _read_requirements fs0 (n + 1) "requirements.txt" =
        (match _read_requirements fs0 n "requirements.txt" with
         | .error e => (.error e : Except SetupErr (List String))
         | .ok rs => .ok (rs ++ [])) := rfl
    rw [h, ih]

/-- Claim C2 (counterexample): the file contents `contents2` contain the
line `__version__ = "2.0.0"`, yet `find_version` returns `1.0.0`, the value
of the first matching line, not `2.0.0`. -/
theorem find_version_second_line_counterexample :
    ("__version__ = \"2.0.0\"") ∈ splitLines contents2 ∧
    find_version contents2 = .ok "1.0.0" ∧
    find_version contents2 ≠ .ok "2.0.0" := by
  refine ⟨by decide, rfl, ?_⟩
  have h10 : find_version contents2 = .ok "1.0.0" := rfl
  rw [h10]
  intro h
  injection h with h2
  exact absurd h2 (by decide)

/-- Claim C2 (corrected): `find_version` returns the version captured from
the first line on which the anchored version regex matches, and when no
line matches it raises RuntimeError, never returning a value. -/
theorem find_version_first_match_spec :
    (∀ contents pre line post v, splitLines contents = pre ++ line :: post →
       (∀ l ∈ pre, matchVersionLine l = none) → matchVersionLine line = some v →
       find_version contents = .ok v) ∧
    (∀ contents, (∀ l ∈ splitLines contents, matchVersionLine l = none) →
       find_version contents = .error .runtimeError) := by
  constructor
  · intro contents pre line post v hl hpre hline
    exact find_version_first contents pre line post v hl hpre hline
  · intro contents h
    unfold find_version
    rw [findSome?_eq_none_of _ _ h]

/-- Witness for claim C2: the two hypotheses are satisfiable; on
`contents2` the first matching line yields `1.0.0`, and contents without a
version literal produce the RuntimeError. -/
theorem find_version_first_match_instance :
    find_version contents2 = .ok "1.0.0" ∧
    find_version "no version here" = .error .runtimeError :=
  ⟨find_version_first_match_spec.1 contents2 [] "__version__ = \"1.0.0\""
      ["__version__ = \"2.0.0\""] "1.0.0" rfl (by simp) rfl,
   find_version_first_match_spec.2 "no version here" (by decide)⟩

/-- Claim C8 (confirmed): the version regex only matches at the start of a
line, so a line not beginning with the literal `__version__ = ` pattern
never matches, in particular an indented assignment does not; and among
several matching lines the first one determines the result of
`find_version`. -/
theorem find_version_anchored_first_match :
    (∀ line : String, line.data.take versionPat.length ≠ versionPat →
       matchVersionLine line = none) ∧
    matchVersionLine "  __version__ = \"9.9.9\"" = none ∧
    (∀ contents pre line post v, splitLines contents = pre ++ line :: post →
       (∀ l ∈ pre, matchVersionLine l = none) → matchVersionLine line = some v →
       find_version contents = .ok v) := by
  refine ⟨?_, rfl, ?_⟩
  · intro line hne
    unfold matchVersionLine
    rw [if_neg hne]
  · intro contents pre line post v hl hpre hline
    exact find_version_first contents pre line post v hl hpre hline

/-- Witness for claim C8: a prefixed assignment concretely fails to match,
and on the two-line `contents2` the first line wins. -/
theorem find_version_anchored_instance :
    matchVersionLine "x__version__ = \"9\"" = none ∧
    find_version contents2 = .ok "1.0.0" :=
  ⟨find_version_anchored_first_match.1 "x__version__ = \"9\"" (by decide),
   find_version_anchored_first_match.2.2 contents2 [] "__version__ = \"1.0.0\""
     ["__version__ = \"2.0.0\""] "1.0.0" rfl (by simp) rfl⟩

/-- Claim C3 (counterexample): an nvcc output with two `release` tokens
contains `release` followed by `12.1,`, yet the probe parses the token
after the first `release` and returns 9.2, not 12.1. -/
theorem nvcc_version_duplicate_release :
    (pySplit nvccOutDup)[2]? = some "release" ∧
    (pySplit nvccOutDup)[3]? = some "12.1," ∧
    get_nvcc_cuda_version (some "/usr/local/cuda") nvccOutDup = .ok (PyVersion.mk [9, 2]) ∧
    PyVersion.mk [9, 2] ≠ PyVersion.mk [12, 1] := by
  refine ⟨rfl, rfl, rfl, by decide⟩

/-- Claim C3 (corrected): when the token after the first `release` token of
the whitespace-split nvcc output is `12.1,`, the probe returns version
12.1, taking the token after `release`, cutting it at the first comma and
parsing it. -/
theorem nvcc_version_first_release_spec (chome out : String) (pre post : List String)
    (hsplit : pySplit out = pre ++ "release" :: "12.1," :: post)
    (hpre : ∀ t ∈ pre, t ≠ "release") :
    get_nvcc_cuda_version (some chome) out = .ok (PyVersion.mk [12, 1]) := by
  show parseNvccOutput out = .ok (PyVersion.mk [12, 1])
  unfold parseNvccOutput
  rw [hsplit]
  simp [pyIndex_append "release" pre ("12.1," :: post) hpre,
    getElem?_append_succ pre "release" "12.1," post]
  rfl

/-- Witness for claim C3: a realistic nvcc output whose first `release`
token is followed by `12.1,` makes the probe return 12.1. -/
theorem nvcc_version_release_instance :
    get_nvcc_cuda_version (some "/usr/local/cuda") nvccOutGood = .ok (PyVersion.mk [12, 1]) :=
  nvcc_version_first_release_spec "/usr/local/cuda" nvccOutGood
    ["Cuda", "compilation", "tools,"] ["V12.1.105"] rfl (by decide)

/-- Claim C4 (counterexample): on `fs1` the directive is the first line and
`alpha` follows it, so the loader returns `["beta", "alpha"]`, the resolved
include spliced at the directive position, not the concatenation
`["alpha"] ++ ["beta"]` of the own non-directive lines with the resolved
lines of the included file. -/
theorem read_requirements_order_counterexample :
    get_requirements fs1 2 = .ok ["beta", "alpha"] ∧
    _read_requirements fs1 2 "other.txt" = .ok ["beta"] ∧
    get_requirements fs1 2 ≠ .ok (["alpha"] ++ ["beta"]) := by
  refine ⟨rfl, rfl, ?_⟩
  have hv : get_requirements fs1 2 = .ok ["beta", "alpha"] := rfl
  rw [hv]
  intro h
  injection h with h2
  exact absurd h2 (by decide)

/-- Claim C4 (corrected): for a requirements file whose stripped lines are
`pre ++ [line] ++ post` with `line` the only `-r` directive, the loader
returns `pre`, then the recursively resolved lines of the directive target,
then `post`: the include expands in place, preserving the order of the
file, and the result is a flat list. -/
theorem read_requirements_splice_spec (fs : String → Option String) (fuel : Nat)
    (target line contents : String) (pre post rs : List String)
    (hc : fs "requirements.txt" = some contents)
    (hl : splitLines (pyStrip contents) = pre ++ line :: post)
    (hpre : ∀ l ∈ pre, startsWithStr l "-r " = false)
    (hpost : ∀ l ∈ post, startsWithStr l "-r " = false)
    (hline : startsWithStr line "-r " = true)
    (htarget : (pySplit line)[1]? = some target)
    (hrs : _read_requirements fs fuel target = .ok rs) :
    get_requirements fs (fuel + 1) = .ok (pre ++ rs ++ post) := by
  have hstep : get_requirements fs (fuel + 1) =
      (match fs "requirements.txt" with
       | none => (.error .fileMissing : Except SetupErr (List String))
       | some c =>
         resolveLoop (fun fn => _read_requirements fs fuel fn)
           (splitLines (pyStrip c))) := rfl
  rw [hstep, hc]
  show resolveLoop (fun fn => _read_requirements fs fuel fn)
      (splitLines (pyStrip contents)) = .ok (pre ++ rs ++ post)
  rw [hl, List.append_assoc]
  exact resolveLoop_clean_ok _ pre hpre (line :: post) (rs ++ post)
    (resolveLoop_directive _ line target post rs post hline htarget hrs
      (resolveLoop_self_ok _ post hpost))

/-- Witness for claim C4: on `fs1` with fuel 1 for the include, the spliced
result is `[] ++ ["beta"] ++ ["alpha"]`. -/
theorem read_requirements_splice_instance :
    get_requirements fs1 (1 + 1) = .ok ([] ++ ["beta"] ++ ["alpha"]) :=
  read_requirements_splice_spec fs1 1 "other.txt" "-r other.txt"
    "-r other.txt\nalpha" [] ["alpha"] ["beta"] rfl rfl (by simp) (by decide)
    rfl rfl rfl

/-- Claim C10 (confirmed): the loader strips only the whole file before
splitting on newlines, so an interior blank line survives the split, is not
an `-r` directive, and is therefore kept as an empty-string entry of any
successfully returned list. -/
theorem read_requirements_keeps_blank_lines (fs : String → Option String) (fuel : Nat)
    (contents : String) (res : List String)
    (hc : fs "requirements.txt" = some contents)
    (hblank : "" ∈ splitLines (pyStrip contents))
    (hres : get_requirements fs fuel = .ok res) :
    "" ∈ res := by
  cases fuel with
  | zero => exact Except.noConfusion hres
  | succ n =>
    have hstep : get_requirements fs (n + 1) =
        (match fs "requirements.txt" with
         | none => (.error .fileMissing : Except SetupErr (List String))
         | some c =>
           resolveLoop (fun fn => _read_requirements fs n fn)
             (splitLines (pyStrip c))) := rfl
    rw [hstep, hc] at hres
    have hres2 : resolveLoop (fun fn => _read_requirements fs n fn)
        (splitLines (pyStrip contents)) = .ok res := hres
    exact resolveLoop_preserves_plain _ _ res hres2 "" hblank rfl

/-- Witness for claim C10: on `fs3`, whose requirements file has an interior
blank line, the blank entry is in the returned list. -/
theorem read_requirements_blank_line_instance :
    "" ∈ (["alpha", "", "beta"] : List String) :=
  read_requirements_keeps_blank_lines fs3 1 "alpha\n\nbeta" ["alpha", "", "beta"]
    rfl (by decide) rfl

/-- Claim C7 (confirmed): with `CUDA_HOME` unset the version probe fails
with the assertion error before invoking nvcc; the script run fails, its
trace contains neither the nvcc invocation nor either glob, and whenever
the version file read itself succeeds the failure surfacing from the run is
exactly the assertion error. -/
theorem setup_missing_cuda_home_aborts (env : SetupEnv) (fuel : Nat)
    (h : env.cuda_home = none) :
    get_nvcc_cuda_version env.cuda_home env.nvcc_out = .error .assertionError ∧
    (∀ r, (runSetup env fuel).2 ≠ .ok r) ∧
    SetupAction.invokeNvcc ∉ (runSetup env fuel).1 ∧
    SetupAction.globCpp ∉ (runSetup env fuel).1 ∧
    SetupAction.globCu ∉ (runSetup env fuel).1 ∧
    (∀ v, find_version env.initPy = .ok v →
       (runSetup env fuel).2 = .error .assertionError) := by
  cases hfv : find_version env.initPy with
  | error e =>
    have hrun : runSetup env fuel = ([SetupAction.readVersionFile], .error e) := by
      unfold runSetup
      rw [hfv]
    refine ⟨by rw [h]; rfl, ?_, ?_, ?_, ?_, ?_⟩
    · intro r
      rw [hrun]
      exact fun hx => Except.noConfusion hx
    · rw [hrun]
      intro hx
      exact SetupAction.noConfusion (List.mem_singleton.mp hx)
    · rw [hrun]
      intro hx
      exact SetupAction.noConfusion (List.mem_singleton.mp hx)
    · rw [hrun]
      intro hx
      exact SetupAction.noConfusion (List.mem_singleton.mp hx)
    · intro v hv
      exact Except.noConfusion hv
  | ok base =>
    have hrun : runSetup env fuel = ([SetupAction.readVersionFile], .error .assertionError) := by
      unfold runSetup
      rw [hfv, h]
    refine ⟨by rw [h]; rfl, ?_, ?_, ?_, ?_, ?_⟩
    · intro r
      rw [hrun]
      exact fun hx => Except.noConfusion hx
    · rw [hrun]
      intro hx
      exact SetupAction.noConfusion (List.mem_singleton.mp hx)
    · rw [hrun]
      intro hx
      exact SetupAction.noConfusion (List.mem_singleton.mp hx)
    · rw [hrun]
      intro hx
      exact SetupAction.noConfusion (List.mem_singleton.mp hx)
    · intro v hv
      rw [hrun]

/-- Witness for claim C7: in the concrete environment `env0`, where
`CUDA_HOME` is unset and the version file is wellformed, the run aborts
with the assertion error. -/
theorem setup_missing_cuda_home_instance :
    (runSetup env0 1).2 = .error .assertionError :=
  (setup_missing_cuda_home_aborts env0 1 rfl).2.2.2.2.2 "0.0.1" rfl
